import Mathlib

set_option autoImplicit false

/-!
Verification development for the cvdriver driving simulation.

JavaScript numbers are embedded as exact rationals (ℚ) wherever the modelled
code only uses field operations and comparisons, and as real numbers (ℝ)
where the code takes square roots or sines.  Stateful methods become explicit
state-passing functions; the Rapier physics engine is opaque, so states read
back from it are universally quantified inputs.  Calls to Math.random() are
modelled by an explicit stream of rationals threaded through the functions
that consume them.
-/

namespace CVDriver

/-- A 3-component vector with exact rational coordinates, embedding the
THREE.Vector3 values manipulated by the world and physics managers. -/
structure Vec3 where
  x : ℚ
  y : ℚ
  z : ℚ
deriving Repr, DecidableEq

/-- Quaternion components as stored on a Rapier rigid body
(body.rotation() returns x, y, z, w). -/
structure Quat4 where
  x : ℚ
  y : ℚ
  z : ℚ
  w : ℚ
deriving Repr, DecidableEq

def Vec3.dot (a b : Vec3) : ℚ := a.x * b.x + a.y * b.y + a.z * b.z

def Vec3.sub (a b : Vec3) : Vec3 := ⟨a.x - b.x, a.y - b.y, a.z - b.z⟩

def Vec3.add (a b : Vec3) : Vec3 := ⟨a.x + b.x, a.y + b.y, a.z + b.z⟩

def Vec3.smul (c : ℚ) (v : Vec3) : Vec3 := ⟨c * v.x, c * v.y, c * v.z⟩

/-- State of the player car body as read back after the car update inside one
fixed step of PhysicsManager.update (physics.js): position, linear velocity
and rotation quaternion.  The Rapier world step itself is opaque, so clamp
theorems quantify over arbitrary post-step states. -/
structure CarBodyState where
  pos : Vec3
  linvel : Vec3
  rot : Quat4
deriving Repr, DecidableEq

/-- Ground clamp from PhysicsManager.update (physics.js lines 368-380): when
the car's y position is at or below 0, snap y to 0, zero the vertical
velocity if it is downward, and replace the rotation by one keeping only the
y and w quaternion components (the code comment: only preserve yaw). -/
def groundClamp (s : CarBodyState) : CarBodyState :=
  if s.pos.y ≤ 0 then
    { pos := ⟨s.pos.x, 0, s.pos.z⟩
      linvel := if s.linvel.y < 0 then ⟨s.linvel.x, 0, s.linvel.z⟩ else s.linvel
      rot := ⟨0, s.rot.y, 0, s.rot.w⟩ }
  else s

/-- Start-line clamp from PhysicsManager.update (physics.js lines 381-388):
when the car's z position exceeds 1, snap z to 1 and zero the z velocity if
it is positive. -/
def zClamp (s : CarBodyState) : CarBodyState :=
  if s.pos.z > 1 then
    { pos := ⟨s.pos.x, s.pos.y, 1⟩
      linvel := if s.linvel.z > 0 then ⟨s.linvel.x, s.linvel.y, 0⟩ else s.linvel
      rot := s.rot }
  else s

/-- The two clamps in the order PhysicsManager.update applies them inside each
fixed step: ground clamp first, then the start-line z clamp. -/
def stepClamps (s : CarBodyState) : CarBodyState := zClamp (groundClamp s)

/-! Claim C3: ground clamp invariant. -/

/-- C3: after the clamp section of every fixed physics step the vehicle's
y-position is nonnegative, and whenever the clamp fires (incoming y ≤ 0) the
position is snapped to y = 0, the post-step vertical velocity is nonnegative,
and the rotation keeps only its y and w quaternion components (pitch and roll
components zeroed, yaw components preserved). -/
theorem groundClamp_invariant (s : CarBodyState) :
    0 ≤ (stepClamps s).pos.y ∧
    (s.pos.y ≤ 0 →
      (stepClamps s).pos.y = 0 ∧
      0 ≤ (stepClamps s).linvel.y ∧
      (stepClamps s).rot.x = 0 ∧ (stepClamps s).rot.z = 0 ∧
      (stepClamps s).rot.y = s.rot.y ∧ (stepClamps s).rot.w = s.rot.w) := by
  unfold stepClamps zClamp groundClamp
  split_ifs <;> simp_all <;> linarith

/-- Witness for C3 at a concrete sunk, tilted, falling state. -/
theorem groundClamp_invariant_witness :
    (0 : ℚ) ≤ (stepClamps ⟨⟨3, -2, 5⟩, ⟨1, -4, 2⟩, ⟨1/2, 1/3, 1/4, 1⟩⟩).pos.y ∧
    ((stepClamps ⟨⟨3, -2, 5⟩, ⟨1, -4, 2⟩, ⟨1/2, 1/3, 1/4, 1⟩⟩).pos.y = 0 ∧
      0 ≤ (stepClamps ⟨⟨3, -2, 5⟩, ⟨1, -4, 2⟩, ⟨1/2, 1/3, 1/4, 1⟩⟩).linvel.y ∧
      (stepClamps ⟨⟨3, -2, 5⟩, ⟨1, -4, 2⟩, ⟨1/2, 1/3, 1/4, 1⟩⟩).rot.x = 0 ∧
      (stepClamps ⟨⟨3, -2, 5⟩, ⟨1, -4, 2⟩, ⟨1/2, 1/3, 1/4, 1⟩⟩).rot.z = 0 ∧
      (stepClamps ⟨⟨3, -2, 5⟩, ⟨1, -4, 2⟩, ⟨1/2, 1/3, 1/4, 1⟩⟩).rot.y = (1/3 : ℚ) ∧
      (stepClamps ⟨⟨3, -2, 5⟩, ⟨1, -4, 2⟩, ⟨1/2, 1/3, 1/4, 1⟩⟩).rot.w = 1) := by
  refine ⟨(groundClamp_invariant _).1, ?_⟩
  exact (groundClamp_invariant ⟨⟨3, -2, 5⟩, ⟨1, -4, 2⟩, ⟨1/2, 1/3, 1/4, 1⟩⟩).2 (by norm_num)

/-! Claim C9: start-line z clamp invariant. -/

/-- C9: after the clamp section of every fixed physics step the vehicle's
z-position is at most 1, and whenever the incoming z exceeds 1 the position is
snapped to z = 1 and the post-step z velocity is nonpositive (any positive z
velocity is zeroed). -/
theorem zClamp_invariant (s : CarBodyState) :
    (stepClamps s).pos.z ≤ 1 ∧
    (1 < s.pos.z →
      (stepClamps s).pos.z = 1 ∧ (stepClamps s).linvel.z ≤ 0) := by
  unfold stepClamps zClamp groundClamp
  split_ifs <;> simp_all

/-- Witness for C9 at a concrete state beyond the start line with positive z
velocity. -/
theorem zClamp_invariant_witness :
    (stepClamps ⟨⟨0, 2, 7⟩, ⟨0, 0, 3⟩, ⟨0, 0, 0, 1⟩⟩).pos.z ≤ 1 ∧
    ((stepClamps ⟨⟨0, 2, 7⟩, ⟨0, 0, 3⟩, ⟨0, 0, 0, 1⟩⟩).pos.z = 1 ∧
      (stepClamps ⟨⟨0, 2, 7⟩, ⟨0, 0, 3⟩, ⟨0, 0, 0, 1⟩⟩).linvel.z ≤ 0) := by
  refine ⟨(zClamp_invariant _).1, ?_⟩
  exact (zClamp_invariant ⟨⟨0, 2, 7⟩, ⟨0, 0, 3⟩, ⟨0, 0, 0, 1⟩⟩).2 (by norm_num)

/-! Claim C5: segment idempotency in WorldManager.addCurvyRoadSegment. -/

/-- A road point as consumed by addCurvyRoadSegment (worldgen.js): only the x
and z coordinates of the first and last points feed the segment dedup key. -/
structure RoadPt where
  x : ℚ
  y : ℚ
  z : ℚ
  angle : ℚ
deriving Repr, DecidableEq

/-- JavaScript Math.round: round half toward positive infinity. -/
def jsRound (q : ℚ) : ℤ := ⌊q + 1/2⌋

/-- The endpoint-derived segment dedup key of worldgen.js line 546: the string
template literal is injective in the four rounded values, so the key is
modelled as the tuple of Math.round(x*10) and Math.round(z*10) of the first
and last point. -/
structure SegKey where
  x0 : ℤ
  z0 : ℤ
  x1 : ℤ
  z1 : ℤ
deriving Repr, DecidableEq

def segmentKey (p0 p1 : RoadPt) : SegKey :=
  ⟨jsRound (p0.x * 10), jsRound (p0.z * 10), jsRound (p1.x * 10), jsRound (p1.z * 10)⟩

/-- The WorldManager state touched by addCurvyRoadSegment: the
generatedSegments set, plus the state the downstream builders act on (scene
meshes, grids, colliders, fences, trees, coins), abstracted as a type
parameter because the builders never touch generatedSegments. -/
structure SegState (β : Type) where
  generatedSegments : List SegKey
  built : β

/-- WorldManager.addCurvyRoadSegment (worldgen.js lines 543-569): return if
fewer than two points; compute the endpoint key; return if the key is already
in generatedSegments; otherwise insert the key first and only then run the
builders (road strip, grids, road colliders, fences, trees, coin clusters),
here abstracted as the function build. -/
def addCurvyRoadSegment {β : Type} (build : List RoadPt → β → β)
    (points : List RoadPt) (st : SegState β) : SegState β :=
  match points with
  | [] => st
  | p0 :: rest =>
    if (p0 :: rest).length < 2 then st
    else if segmentKey p0 ((p0 :: rest).getLast (List.cons_ne_nil p0 rest)) ∈
        st.generatedSegments then st
    else { generatedSegments :=
             segmentKey p0 ((p0 :: rest).getLast (List.cons_ne_nil p0 rest)) ::
               st.generatedSegments
           built := build (p0 :: rest) st.built }

/-- Instrumentation of the builders: log the endpoint key of every point list
that actually reaches the artifact builders, one entry per built artifact
set. -/
def logBuild (points : List RoadPt) (log : List SegKey) : List SegKey :=
  match points with
  | [] => log
  | p0 :: rest => segmentKey p0 ((p0 :: rest).getLast (List.cons_ne_nil p0 rest)) :: log

/-- The WorldManager constructor state: empty generatedSegments, nothing
built. -/
def initialSegState : SegState (List SegKey) := ⟨[], []⟩

/-- Builder-log invariant: every built artifact set has its key in
generatedSegments, and no key was built twice. -/
def SegInv (st : SegState (List SegKey)) : Prop :=
  st.built.Nodup ∧ ∀ k ∈ st.built, k ∈ st.generatedSegments

theorem addCurvyRoadSegment_preserves_inv (points : List RoadPt)
    (st : SegState (List SegKey)) (h : SegInv st) :
    SegInv (addCurvyRoadSegment logBuild points st) := by
  obtain ⟨hnd, hsub⟩ := h
  cases points with
  | nil => exact ⟨hnd, hsub⟩
  | cons p0 rest =>
    simp only [addCurvyRoadSegment]
    split_ifs with hlen hmem
    · exact ⟨hnd, hsub⟩
    · exact ⟨hnd, hsub⟩
    · have hnotbuilt :
          segmentKey p0 ((p0 :: rest).getLast (List.cons_ne_nil p0 rest)) ∉ st.built :=
        fun hk => hmem (hsub _ hk)
      refine ⟨?_, ?_⟩
      · simp only [logBuild]
        exact List.Nodup.cons hnotbuilt hnd
      · simp only [logBuild]
        intro k hk
        rcases List.mem_cons.mp hk with hk | hk
        · exact hk ▸ List.mem_cons_self _ _
        · exact List.mem_cons_of_mem _ (hsub _ hk)

/-- C5: calling addCurvyRoadSegment when the endpoint-derived key is already
in the generated-segment set is a complete no-op (no artifact of any kind is
built, for every possible builder); and, because the key is inserted before
the builders run, after any sequence of calls starting from the constructor
state every key has been handed to the builders at most once. -/
theorem addCurvyRoadSegment_idempotent :
    (∀ (β : Type) (build : List RoadPt → β → β) (p0 : RoadPt) (rest : List RoadPt)
        (st : SegState β),
        segmentKey p0 ((p0 :: rest).getLast (List.cons_ne_nil p0 rest)) ∈
          st.generatedSegments →
        addCurvyRoadSegment build (p0 :: rest) st = st) ∧
    (∀ calls : List (List RoadPt),
        ((calls.foldl (fun st pts => addCurvyRoadSegment logBuild pts st)
            initialSegState).built).Nodup) := by
  constructor
  · intro β build p0 rest st hmem
    simp only [addCurvyRoadSegment]
    split_ifs <;> rfl
  · intro calls
    have main : ∀ (l : List (List RoadPt)) (st : SegState (List SegKey)),
        SegInv st → SegInv (l.foldl (fun st pts => addCurvyRoadSegment logBuild pts st) st) := by
      intro l
      induction l with
      | nil => intro st h; exact h
      | cons hd tl ih =>
          intro st h
          exact ih _ (addCurvyRoadSegment_preserves_inv hd st h)
    exact (main calls initialSegState ⟨List.nodup_nil, by simp [initialSegState]⟩).1

/-- Witness for C5: a second call with a two-point list whose key is already
recorded leaves a concrete state untouched. -/
theorem addCurvyRoadSegment_idempotent_witness :
    addCurvyRoadSegment logBuild [⟨0, 0, 0, 0⟩, ⟨3, 0, -20, 0⟩]
        ⟨[segmentKey ⟨0, 0, 0, 0⟩ ⟨3, 0, -20, 0⟩], [segmentKey ⟨0, 0, 0, 0⟩ ⟨3, 0, -20, 0⟩]⟩ =
      ⟨[segmentKey ⟨0, 0, 0, 0⟩ ⟨3, 0, -20, 0⟩], [segmentKey ⟨0, 0, 0, 0⟩ ⟨3, 0, -20, 0⟩]⟩ ∧
    (([[⟨0, 0, 0, 0⟩, ⟨3, 0, -20, 0⟩], [⟨0, 0, 0, 0⟩, ⟨3, 0, -20, 0⟩]].foldl
        (fun st pts => addCurvyRoadSegment logBuild pts st) initialSegState).built).Nodup := by
  constructor
  · exact addCurvyRoadSegment_idempotent.1 _ logBuild ⟨0, 0, 0, 0⟩ [⟨3, 0, -20, 0⟩] _
      (by simp)
  · exact addCurvyRoadSegment_idempotent.2 _

/-! Claims C1 and C2: the slip-based grip model of Car._applyGripAndDrift
(npc.js, second Car class, lines 1026-1063).  Square roots force this part of
the embedding into ℝ. -/

/-- A 3-component real vector for the velocity and heading computations of the
grip model. -/
structure RVec3 where
  x : ℝ
  y : ℝ
  z : ℝ

/-- Real quaternion components of the car body rotation. -/
structure RQuat where
  x : ℝ
  y : ℝ
  z : ℝ
  w : ℝ

noncomputable def RVec3.len (v : RVec3) : ℝ :=
  Real.sqrt (v.x * v.x + v.y * v.y + v.z * v.z)

def RVec3.dot (a b : RVec3) : ℝ := a.x * b.x + a.y * b.y + a.z * b.z

def RVec3.smul (c : ℝ) (v : RVec3) : RVec3 := ⟨c * v.x, c * v.y, c * v.z⟩

def RVec3.add (a b : RVec3) : RVec3 := ⟨a.x + b.x, a.y + b.y, a.z + b.z⟩

def RVec3.sub (a b : RVec3) : RVec3 := ⟨a.x - b.x, a.y - b.y, a.z - b.z⟩

/-- THREE.Vector3.applyQuaternion: rotate v by the quaternion q. -/
def RVec3.applyQuat (v : RVec3) (q : RQuat) : RVec3 :=
  let tx := 2 * (q.y * v.z - q.z * v.y)
  let ty := 2 * (q.z * v.x - q.x * v.z)
  let tz := 2 * (q.x * v.y - q.y * v.x)
  ⟨v.x + q.w * tx + (q.y * tz - q.z * ty),
   v.y + q.w * ty + (q.z * tx - q.x * tz),
   v.z + q.w * tz + (q.x * ty - q.y * tx)⟩

/-- THREE.Vector3.normalize: divide by the length, or by 1 when the length is
zero (THREE divides by length || 1). -/
noncomputable def RVec3.normalize (v : RVec3) : RVec3 :=
  let l := if v.len = 0 then 1 else v.len
  ⟨v.x / l, v.y / l, v.z / l⟩

/-- Grip coefficient of Car._applyGripAndDrift with the Car constructor
parameters maxGrip = 7, baseGrip = 2, driftSlipThreshold = 0.25 and
driftGripMultiplier = 0.3 (npc.js lines 727-730): lerp from maxGrip to
baseGrip by the slip ratio (THREE.MathUtils.lerp(x, y, t) = (1-t)x + ty),
times 0.7 once slip exceeds the drift threshold, times the handbrake
grip-reduction factor while the handbrake is held. -/
noncomputable def gripCoef (slip : ℝ) (handbrake : Bool) : ℝ :=
  let g : ℝ := (1 - slip) * 7 + slip * 2
  let g2 : ℝ := if 0.25 < slip then g * 0.7 else g
  if handbrake then g2 * 0.3 else g2

/-- C2: the grip coefficient is non-increasing in the slip ratio on [0, 1],
and for equal slip the grip with handbrake held is at most the grip without
handbrake. -/
theorem gripCoef_monotone :
    (∀ (hb : Bool) (s1 s2 : ℝ), 0 ≤ s1 → s1 ≤ s2 → s2 ≤ 1 →
        gripCoef s2 hb ≤ gripCoef s1 hb) ∧
    (∀ s : ℝ, 0 ≤ s → s ≤ 1 → gripCoef s true ≤ gripCoef s false) := by
  constructor
  · intro hb s1 s2 h0 h12 h21
    unfold gripCoef
    cases hb <;> simp only [Bool.false_eq_true, if_false, if_true] <;>
      split_ifs <;> first | contradiction | nlinarith
  · intro s h0 h1
    unfold gripCoef
    split_ifs <;> first | contradiction | nlinarith

/-- Witness for C2 at slip values 0, 1 and 1/2. -/
theorem gripCoef_monotone_witness :
    gripCoef 1 false ≤ gripCoef 0 false ∧
    gripCoef (1/2) true ≤ gripCoef (1/2) false := by
  constructor
  · exact gripCoef_monotone.1 false 0 1 (by norm_num) (by norm_num) (by norm_num)
  · exact gripCoef_monotone.2 (1/2) (by norm_num) (by norm_num)

/-- Car._applyGripAndDrift, modelled on the body state it reads (rotation
quaternion and linear velocity); the result is the body's linear velocity
after the call.  Below the 0.05 speed threshold the method only mirrors the
velocity for the UI and leaves the body velocity unmodified.  Otherwise it
decomposes the velocity into the component along the heading (the rotated
-z axis, normalized) and the lateral remainder, scales the lateral component
by 1 - min(1, grip*dt), recombines, restores the incoming vertical component
and writes the result back. -/
noncomputable def applyGripAndDrift (handbrake : Bool) (dt : ℝ) (rot : RQuat)
    (linvel : RVec3) : RVec3 :=
  let speed := Real.sqrt (linvel.x * linvel.x + linvel.y * linvel.y + linvel.z * linvel.z)
  if speed < 0.05 then linvel
  else
    let forward := (RVec3.applyQuat ⟨0, 0, -1⟩ rot).normalize
    let forwardSpeed := linvel.dot forward
    let forwardComp := RVec3.smul forwardSpeed forward
    let lateralComp := linvel.sub forwardComp
    let lateralMag := lateralComp.len
    let slip := lateralMag / speed
    let grip := gripCoef slip handbrake
    let bleed := min 1 (grip * dt)
    let lateralBled := RVec3.smul (1 - bleed) lateralComp
    let newVel := forwardComp.add lateralBled
    ⟨newVel.x, linvel.y, newVel.z⟩

/-- Modelled from the spec: the same grip correction described by its words --
decompose the post-step velocity into a forward component (projection onto
heading) and a lateral component, multiply the lateral component by
max(0, 1 - grip*dt), preserve the vertical velocity, recombine, and leave the
velocity unmodified below the speed threshold (slip treated as 0 there since
the method returns before computing it). -/
noncomputable def gripSpecVel (handbrake : Bool) (dt : ℝ) (rot : RQuat)
    (linvel : RVec3) : RVec3 :=
  let speed := Real.sqrt (linvel.x * linvel.x + linvel.y * linvel.y + linvel.z * linvel.z)
  if speed < 0.05 then linvel
  else
    let forward := (RVec3.applyQuat ⟨0, 0, -1⟩ rot).normalize
    let forwardSpeed := linvel.dot forward
    let forwardComp := RVec3.smul forwardSpeed forward
    let lateralComp := linvel.sub forwardComp
    let slip := lateralComp.len / speed
    let grip := gripCoef slip handbrake
    let lateralBled := RVec3.smul (max 0 (1 - grip * dt)) lateralComp
    let newVel := forwardComp.add lateralBled
    ⟨newVel.x, linvel.y, newVel.z⟩

/-- C1: the grip correction written back by Car._applyGripAndDrift is exactly
the spec-side decomposition with the lateral component scaled by
max(0, 1 - grip*dt); the vertical velocity component is always preserved; and
below the 0.05 speed threshold the body velocity is left unmodified. -/
theorem applyGripAndDrift_matches_spec (hb : Bool) (dt : ℝ) (rot : RQuat) (v : RVec3) :
    applyGripAndDrift hb dt rot v = gripSpecVel hb dt rot v ∧
    (applyGripAndDrift hb dt rot v).y = v.y ∧
    (Real.sqrt (v.x * v.x + v.y * v.y + v.z * v.z) < 0.05 →
      applyGripAndDrift hb dt rot v = v) := by
  have hminmax : ∀ a : ℝ, 1 - min 1 a = max 0 (1 - a) := by
    intro a
    rcases le_total a 1 with h | h
    · rw [min_eq_right h, max_eq_right (by linarith)]
    · rw [min_eq_left h, max_eq_left (by linarith)]
      norm_num
  refine ⟨?_, ?_, ?_⟩
  · simp only [applyGripAndDrift, gripSpecVel]
    split_ifs with h
    · rfl
    · rw [hminmax]
  · simp only [applyGripAndDrift]
    split_ifs with h <;> rfl
  · intro h
    simp only [applyGripAndDrift]
    rw [if_pos h]

/-- Witness for C1 at a resting car: speed 0 is below the threshold and the
velocity is untouched. -/
theorem applyGripAndDrift_matches_spec_witness :
    applyGripAndDrift false (1/60) ⟨0, 0, 0, 1⟩ ⟨0, 0, 0⟩ = ⟨0, 0, 0⟩ := by
  refine (applyGripAndDrift_matches_spec false (1/60) ⟨0, 0, 0, 1⟩ ⟨0, 0, 0⟩).2.2 ?_
  have : ((0 : ℝ) * 0 + 0 * 0 + 0 * 0) = 0 := by norm_num
  rw [this, Real.sqrt_zero]
  norm_num

/-! Claim C4: monotonic road.  generateRoadSchematic (worldgen.js lines 3-19)
and WorldManager.interpolateRoadPoints (worldgen.js lines 609-636). -/

/-- A generated road waypoint: position plus heading angle. -/
structure RoadPoint where
  x : ℝ
  y : ℝ
  z : ℝ
  angle : ℝ

/-- One iteration of the generateRoadSchematic loop (worldgen.js lines 11-17):
advance z by -20, perturb the heading angle by (random - 0.5) * 3, add
sin(new angle) * 6 to x, and keep the road flat (y = 0).  The Math.random()
value of the iteration is the argument r. -/
noncomputable def roadStep (r : ℝ) (p : RoadPoint) : RoadPoint :=
  ⟨p.x + Real.sin (p.angle + (r - 0.5) * 3) * 6, 0, p.z - 20,
   p.angle + (r - 0.5) * 3⟩

/-- The loop of generateRoadSchematic: k remaining iterations, the iteration
index i selecting the Math.random() value rnd i, and the current mutable
(x, y, z, angle) tuple; each iteration pushes the updated tuple. -/
noncomputable def genRoadAux (rnd : ℕ → ℝ) : ℕ → ℕ → RoadPoint → List RoadPoint
  | _, 0, _ => []
  | i, k + 1, p =>
      roadStep (rnd i) p :: genRoadAux rnd (i + 1) k (roadStep (rnd i) p)

/-- generateRoadSchematic (worldgen.js lines 3-19): 20 loop iterations from
the seed pose. -/
noncomputable def generateRoadSchematic (rnd : ℕ → ℝ)
    (initialX initialY initialZ initialAngle : ℝ) : List RoadPoint :=
  genRoadAux rnd 0 20 ⟨initialX, initialY, initialZ, initialAngle⟩

/-- The point the interpolation loop of interpolateRoadPoints pushes for
parameter t between two consecutive waypoints. -/
noncomputable def lerpPoint (current next : RoadPoint) (t : ℝ) : RoadPoint :=
  ⟨current.x + (next.x - current.x) * t,
   current.y + (next.y - current.y) * t,
   current.z + (next.z - current.z) * t,
   current.angle + (next.angle - current.angle) * t⟩

/-- The inner loop of interpolateRoadPoints: the subdivision points pushed
between current and next, at parameters j / (subdivisions + 1) for
j = 1 .. subdivisions. -/
noncomputable def interpSegment (subdivisions : ℕ) (current next : RoadPoint) :
    List RoadPoint :=
  (List.range subdivisions).map
    (fun (j : ℕ) => lerpPoint current next (((j : ℝ) + 1) / ((subdivisions : ℝ) + 1)))

/-- The outer loop of interpolateRoadPoints over consecutive waypoint pairs:
each pair contributes its subdivision points, and every pair except the last
additionally re-pushes the next waypoint. -/
noncomputable def interpPairs (subdivisions : ℕ) : List RoadPoint → List RoadPoint
  | [] => []
  | [_] => []
  | [current, next] => interpSegment subdivisions current next
  | current :: next :: r :: rs =>
      interpSegment subdivisions current next ++
        next :: interpPairs subdivisions (next :: r :: rs)

/-- WorldManager.interpolateRoadPoints (worldgen.js lines 609-636): lists of
fewer than two points are returned unchanged; otherwise the first point, the
pair loop output, and finally the last point. -/
noncomputable def interpolateRoadPoints (subdivisions : ℕ)
    (points : List RoadPoint) : List RoadPoint :=
  match points with
  | [] => []
  | [p] => [p]
  | p :: q :: rest =>
      p :: (interpPairs subdivisions (p :: q :: rest) ++
        [(p :: q :: rest).getLast (List.cons_ne_nil p (q :: rest))])

/-- Strict step-to-step decrease of z along a waypoint list. -/
def zStrictDecr (l : List RoadPoint) : Prop :=
  List.Chain' (fun u v : RoadPoint => v.z < u.z) l

theorem genRoadAux_chain (rnd : ℕ → ℝ) :
    ∀ (k i : ℕ) (p : RoadPoint),
      List.Chain (fun u v : RoadPoint => v.z = u.z - 20) p (genRoadAux rnd i k p) := by
  intro k
  induction k with
  | zero => intro i p; exact List.Chain.nil
  | succ m ih =>
      intro i p
      exact List.Chain.cons (by simp [roadStep]) (ih (i + 1) (roadStep (rnd i) p))

theorem chain_lt_range_app (g : ℕ → ℝ) (d : ℝ) :
    ∀ (k s : ℕ) (c : ℝ), (∀ i, g i < g (i + 1)) → c < g s → c < d →
      (∀ j, j < k → g (s + j) < d) →
      List.Chain (fun u v : ℝ => u < v) c
        (((List.range k).map (fun j => g (s + j))) ++ [d]) := by
  intro k
  induction k with
  | zero =>
      intro s c _ _ hcd _
      exact List.Chain.cons hcd List.Chain.nil
  | succ m ih =>
      intro s c hg hc _ hdg
      rw [List.range_succ_eq_map, List.map_cons, List.map_map, List.cons_append]
      refine List.Chain.cons (by simpa using hc) ?_
      have hfun : ((fun j : ℕ => g (s + j)) ∘ Nat.succ) = fun j : ℕ => g ((s + 1) + j) := by
        funext j
        simp only [Function.comp_apply]
        congr 1
        omega
      rw [hfun]
      have hnext : g (s + 0) < g (s + 1) := by simpa using hg s
      refine ih (s + 1) (g (s + 0)) hg (by simpa using hnext) ?_ ?_
      · simpa using hdg 0 (Nat.succ_pos m)
      · intro j hj
        have := hdg (j + 1) (by omega)
        have harith : s + (j + 1) = s + 1 + j := by omega
        rwa [harith] at this

theorem chain_map_lerp (a b : RoadPoint) (hab : b.z < a.z) :
    ∀ (ts : List ℝ) (c : ℝ),
      List.Chain (fun u v : ℝ => u < v) c ts →
      List.Chain (fun u v : RoadPoint => v.z < u.z) (lerpPoint a b c)
        (ts.map (lerpPoint a b)) := by
  intro ts
  induction ts with
  | nil => intro c _; exact List.Chain.nil
  | cons t ts2 ih =>
      intro c h
      rcases List.chain_cons.mp h with ⟨hct, h2⟩
      refine List.Chain.cons ?_ (ih t h2)
      show (lerpPoint a b t).z < (lerpPoint a b c).z
      simp only [lerpPoint]
      nlinarith

theorem lerpPoint_zero (a b : RoadPoint) : lerpPoint a b 0 = a := by
  cases a
  simp [lerpPoint]

theorem lerpPoint_one (a b : RoadPoint) : lerpPoint a b 1 = b := by
  cases a
  cases b
  simp only [lerpPoint, RoadPoint.mk.injEq]
  exact ⟨by ring, by ring, by ring, by ring⟩

theorem interpSegment_chain (n : ℕ) (a b : RoadPoint) (hab : b.z < a.z) :
    List.Chain (fun u v : RoadPoint => v.z < u.z) a (interpSegment n a b ++ [b]) := by
  have hden : (0 : ℝ) < (n : ℝ) + 1 := by positivity
  have hparams := chain_lt_range_app (fun j => ((j : ℝ) + 1) / ((n : ℝ) + 1)) 1 n 0 0
    (fun i => by
      rw [div_lt_div_iff_of_pos_right hden]
      push_cast
      linarith)
    (by positivity) (by norm_num)
    (fun j hj => by
      rw [div_lt_one hden]
      push_cast
      exact_mod_cast by linarith [hj])
  have hmap := chain_map_lerp a b hab _ 0 hparams
  rw [lerpPoint_zero, List.map_append, List.map_cons, List.map_nil, List.map_map,
    lerpPoint_one] at hmap
  have hfun : ((lerpPoint a b) ∘ (fun j : ℕ => ((↑(0 + j) : ℝ) + 1) / ((n : ℝ) + 1))) =
      fun j : ℕ => lerpPoint a b (((j : ℝ) + 1) / ((n : ℝ) + 1)) := by
    funext j
    simp only [Function.comp_apply, Nat.zero_add]
  rw [hfun] at hmap
  unfold interpSegment
  exact hmap

theorem interpPairs_chain (n : ℕ) :
    ∀ (rest : List RoadPoint) (a b : RoadPoint),
      List.Chain' (fun u v : RoadPoint => v.z < u.z) (a :: b :: rest) →
      List.Chain (fun u v : RoadPoint => v.z < u.z) a
        (interpPairs n (a :: b :: rest) ++
          [(a :: b :: rest).getLast (List.cons_ne_nil a (b :: rest))]) := by
  intro rest
  induction rest with
  | nil =>
      intro a b h
      have hab : b.z < a.z := (List.chain'_cons.mp h).1
      simpa [interpPairs] using interpSegment_chain n a b hab
  | cons c rs ih =>
      intro a b h
      have hab : b.z < a.z := (List.chain'_cons.mp h).1
      have htail : List.Chain' (fun u v : RoadPoint => v.z < u.z) (b :: c :: rs) :=
        (List.chain'_cons.mp h).2
      have hih := ih b c htail
      simp only [interpPairs, List.append_assoc, List.cons_append]
      rw [List.chain_split]
      constructor
      · exact interpSegment_chain n a b hab
      · simpa [List.getLast_cons] using hih

/-- C4: every waypoint list returned by generateRoadSchematic steps z down by
exactly 20 from each point to the next (for every random stream and seed
pose); interpolateRoadPoints preserves strict step-to-step z decrease for
every subdivision count; and consequently the smoothed sequence produced from
any generated schematic (at the subdivision count 2 used by
generateNewRoadSegments) has strictly decreasing z throughout. -/
theorem road_z_monotone :
    (∀ (rnd : ℕ → ℝ) (x0 y0 z0 a0 : ℝ),
        List.Chain' (fun u v : RoadPoint => v.z = u.z - 20)
          (generateRoadSchematic rnd x0 y0 z0 a0)) ∧
    (∀ (n : ℕ) (points : List RoadPoint),
        zStrictDecr points → zStrictDecr (interpolateRoadPoints n points)) ∧
    (∀ (rnd : ℕ → ℝ) (x0 y0 z0 a0 : ℝ),
        zStrictDecr (interpolateRoadPoints 2 (generateRoadSchematic rnd x0 y0 z0 a0))) := by
  have hgen : ∀ (rnd : ℕ → ℝ) (x0 y0 z0 a0 : ℝ),
      List.Chain' (fun u v : RoadPoint => v.z = u.z - 20)
        (generateRoadSchematic rnd x0 y0 z0 a0) := by
    intro rnd x0 y0 z0 a0
    have h := genRoadAux_chain rnd 20 0 ⟨x0, y0, z0, a0⟩
    have h2 : List.Chain' (fun u v : RoadPoint => v.z = u.z - 20)
        ((⟨x0, y0, z0, a0⟩ : RoadPoint) :: genRoadAux rnd 0 20 ⟨x0, y0, z0, a0⟩) := h
    exact h2.tail
  have hpres : ∀ (n : ℕ) (points : List RoadPoint),
      zStrictDecr points → zStrictDecr (interpolateRoadPoints n points) := by
    intro n points h
    match points with
    | [] => exact List.chain'_nil
    | [p] => exact h
    | p :: q :: rest =>
        exact interpPairs_chain n rest p q h
  refine ⟨hgen, hpres, ?_⟩
  intro rnd x0 y0 z0 a0
  refine hpres 2 _ ?_
  exact List.Chain'.imp (fun u v h => by rw [h]; linarith) (hgen rnd x0 y0 z0 a0)

/-- Witness for C4: the preservation part applied to a concrete two-point
strictly decreasing list. -/
theorem road_z_monotone_witness :
    zStrictDecr (interpolateRoadPoints 2
      [(⟨0, 0, 0, 0⟩ : RoadPoint), (⟨0, 0, -20, 0⟩ : RoadPoint)]) := by
  refine road_z_monotone.2.1 2 _ ?_
  simp only [zStrictDecr, List.chain'_cons, List.chain'_singleton, and_true]
  norm_num

/-! Claims C6, C7 and C10: the NPC traffic subsystem of WorldManager
(worldgen.js lines 857-1025).  Coordinates are exact rationals; the road
basis helper _getRoadBasisAtZ normalizes direction vectors with a square
root, so it is abstracted as an oracle that returns the (already normalized)
basis axes; Math.random() values come from an explicit stream. -/

/-- An NPC traffic car as stored in WorldManager.npcCars: mesh position and
Euler rotation, cruising speed, direction tag, the active and hit flags, and
the fly-away fields assigned on hit (vx exists from spawn; vy, vz, rotSpeed,
flyTime, flyDuration are written before ever being read, so they carry
default 0 until the hit).  The purely visual fields (mesh color, material
fade, scale) are rendering concerns and are not part of the model. -/
structure NpcCar where
  pos : Vec3
  rot : Vec3
  speed : ℚ
  dir : ℚ
  active : Bool
  hit : Bool
  vx : ℚ
  vy : ℚ
  vz : ℚ
  rotSpeed : Vec3
  flyTime : ℚ
  flyDuration : ℚ
deriving Repr, DecidableEq

/-- The road basis returned by WorldManager._getRoadBasisAtZ: interpolated
centerline point plus normalized forward and perpendicular axes.  Because the
normalization divides by a square root, the basis is supplied by an oracle
function; the extra .normalize() calls the NPC code applies to these axes are
identities on already normalized vectors. -/
structure RoadBasis where
  point : Vec3
  forward : Vec3
  perp : Vec3

/-- An explicit Math.random() stream with a cursor. -/
structure Rng where
  stream : ℕ → ℚ
  idx : ℕ

def Rng.next (g : Rng) : ℚ × Rng := (g.stream g.idx, ⟨g.stream, g.idx + 1⟩)

/-- The NPC-related WorldManager state: the live car list, the next spawn
trigger z, the accumulated NPC hit score bonus, and the number of score
popups created. -/
structure NpcState where
  npcCars : List NpcCar
  nextNpcSpawnZ : ℚ
  npcHitBonus : ℚ
  scorePopups : ℕ
deriving Repr, DecidableEq

/-- WorldManager constructor value npcMaxCount. -/
def npcMaxCount : ℕ := 14

/-- WorldManager constructor value npcSpawnZInterval. -/
def npcSpawnZInterval : ℚ := 70

/-- WorldManager constructor value npcBaseSpeed. -/
def npcBaseSpeed : ℚ := 10

/-- WorldManager constructor value npcDespawnDistance. -/
def npcDespawnDistance : ℚ := 150

/-- WorldManager constructor value npcScoreBonus. -/
def npcScoreBonus : ℚ := 1000

/-- The NPC-related initial state from the WorldManager constructor:
no cars, nextNpcSpawnZ = -120, no bonus, no popups. -/
def initialNpcState : NpcState := ⟨[], -120, 0, 0⟩

/-- The pseudo-lane options of trySpawnNpc. -/
def laneOptions : List ℤ := [0, -1, 1, -2, 2]

/-- The lane-picking while loop of trySpawnNpc: up to laneOptions.length
attempts, each drawing a random index into laneOptions and keeping the first
lane not yet used; if every attempt hits a used lane the loop exits and the
code falls back to lane 0. -/
def pickLane (usedLanes : List ℤ) : ℕ → Rng → ℤ × Rng
  | 0, g => (0, g)
  | attemptsLeft + 1, g =>
      let r := (g.next).1
      let g1 := (g.next).2
      let idx := laneOptions.getD (r * 5).floor.toNat 0
      if idx ∈ usedLanes then pickLane usedLanes attemptsLeft g1 else (idx, g1)

/-- The cluster loop of trySpawnNpc (worldgen.js lines 886-922): for each of
the clusterCount iterations, break when the car count reached npcMaxCount;
pick a pseudo-lane, add it to usedLanes, derive the jittered lateral offset
and spawn z, clamp the lateral offset inside the road, skip the iteration
when another NPC is too close, otherwise consume the mesh color, speed and vx
randoms and push the new cruising car. -/
def spawnClusterLoop (basisAt : ℚ → Option RoadBasis) (roadBasis : RoadBasis)
    (baseSpawnZ : ℚ) : ℕ → List ℤ → NpcState → Rng → NpcState × Rng
  | 0, _, st, g => (st, g)
  | c + 1, usedLanes, st, g =>
      if npcMaxCount ≤ st.npcCars.length then (st, g)
      else
        let laneIndex := (pickLane usedLanes laneOptions.length g).1
        let g1 := (pickLane usedLanes laneOptions.length g).2
        let usedLanes2 := laneIndex :: usedLanes
        let r1 := (g1.next).1
        let g2 := (g1.next).2
        let lateralOffset := (laneIndex : ℚ) * (19/10) + (r1 - 1/2) * (2/5)
        let r2 := (g2.next).1
        let g3 := (g2.next).2
        let spawnZ := baseSpawnZ - r2 * 12
        let laneBasis := (basisAt spawnZ).getD roadBasis
        let center := laneBasis.point
        let maxLateral : ℚ := 6 - 6/5
        let clampedLat := max (-maxLateral) (min maxLateral lateralOffset)
        let spawnPos : Vec3 :=
          ⟨center.x + laneBasis.perp.x * clampedLat,
           1/2 + laneBasis.perp.y * clampedLat,
           center.z + laneBasis.perp.z * clampedLat⟩
        if st.npcCars.any (fun other =>
            decide (|other.pos.z - spawnPos.z| < 5) &&
              decide (|other.pos.x - spawnPos.x| < 11/5)) then
          spawnClusterLoop basisAt roadBasis baseSpawnZ c usedLanes2 st g3
        else
          let g4 := (g3.next).2
          let rSpeed := (g4.next).1
          let g5 := (g4.next).2
          let speed := npcBaseSpeed * (13/20 + rSpeed * (1/2))
          let rVx := (g5.next).1
          let g6 := (g5.next).2
          let npc : NpcCar :=
            { pos := spawnPos
              rot := ⟨0, 0, 0⟩
              speed := speed
              dir := -1
              active := true
              hit := false
              vx := (rVx - 1/2) * (2/5)
              vy := 0
              vz := 0
              rotSpeed := ⟨0, 0, 0⟩
              flyTime := 0
              flyDuration := 0 }
          spawnClusterLoop basisAt roadBasis baseSpawnZ c usedLanes2
            { st with npcCars := st.npcCars ++ [npc] } g6

/-- WorldManager.trySpawnNpc (worldgen.js lines 874-923): refuse when the car
count is at npcMaxCount or the player has not yet crossed nextNpcSpawnZ;
otherwise schedule the next spawn, derive the base spawn z ahead of the
player, give up without a road basis, and run the cluster loop for
1 + floor(random*3) cars. -/
def trySpawnNpc (basisAt : ℚ → Option RoadBasis) (playerPos : Vec3)
    (st : NpcState) (g : Rng) : NpcState × Rng :=
  if npcMaxCount ≤ st.npcCars.length then (st, g)
  else if st.nextNpcSpawnZ < playerPos.z then (st, g)
  else
    let r0 := (g.next).1
    let g1 := (g.next).2
    let st1 := { st with nextNpcSpawnZ := st.nextNpcSpawnZ - (npcSpawnZInterval + r0 * 30) }
    let r1 := (g1.next).1
    let g2 := (g1.next).2
    let baseSpawnZ := playerPos.z - (160 + r1 * 120)
    match basisAt baseSpawnZ with
    | none => (st1, g2)
    | some roadBasis =>
        let r2 := (g2.next).1
        let g3 := (g2.next).2
        let clusterCount := 1 + (r2 * 3).floor.toNat
        spawnClusterLoop basisAt roadBasis baseSpawnZ clusterCount [] st1 g3

/-- The movement and road-centerline clamp applied to one cruising NPC each
update (worldgen.js lines 935-958): advance z by speed*dt and x by vx*dt;
with a road basis at the new z, split the offset from the centerline into
lateral and forward components, clamp the lateral one inside the road, dampen
and reflect vx when the clamp changed it, and rebuild the position. -/
def moveNpc (basisAt : ℚ → Option RoadBasis) (dt : ℚ) (npc : NpcCar) : NpcCar :=
  let pos1 : Vec3 := ⟨npc.pos.x + npc.vx * dt, npc.pos.y, npc.pos.z - npc.speed * dt⟩
  match basisAt pos1.z with
  | none => { npc with pos := pos1 }
  | some basis =>
      let center : Vec3 := ⟨basis.point.x, pos1.y, basis.point.z⟩
      let rel := Vec3.sub pos1 center
      let lateralAxis := basis.perp
      let lateralDist := Vec3.dot rel lateralAxis
      let maxLat : ℚ := 6 - 6/5
      let clampedLat := max (-maxLat) (min maxLat lateralDist)
      let vx2 := if clampedLat ≠ lateralDist then -npc.vx * (3/5) else npc.vx
      let forwardComp := Vec3.dot rel basis.forward
      { npc with
          pos := Vec3.add (Vec3.add center (Vec3.smul clampedLat lateralAxis))
            (Vec3.smul forwardComp basis.forward)
          vx := vx2 }

/-- The fly-away integration of updateNpcCars (worldgen.js lines 997-1023),
run on a car whose hit flag is set: advance the fly clock and the normalized
lifetime (flyDuration || 3 guards a falsy duration), apply gravity to vy,
integrate position and rotation, and despawn the car (none) once it falls
below y = -10 or its normalized fly time reaches 1.  The material fade and
mesh scaling of the same block are purely visual and omitted. -/
def flyNpc (dt : ℚ) (m2 : NpcCar) : Option NpcCar :=
  let flyTime := m2.flyTime + dt
  let tNorm := flyTime / (if m2.flyDuration = 0 then 3 else m2.flyDuration)
  let vy2 := m2.vy - 32 * dt
  let pos3 : Vec3 := ⟨m2.pos.x + m2.vx * dt, m2.pos.y + vy2 * dt,
    m2.pos.z + m2.vz * dt⟩
  let rot3 : Vec3 := ⟨m2.rot.x + m2.rotSpeed.x * dt,
    m2.rot.y + m2.rotSpeed.y * dt, m2.rot.z + m2.rotSpeed.z * dt⟩
  if pos3.y < -10 ∨ 1 ≤ tNorm then none
  else some { m2 with
                flyTime := flyTime
                vy := vy2
                pos := pos3
                rot := rot3 }

/-- The hit-assignment block of updateNpcCars (worldgen.js lines 970-995),
run when a not-yet-hit active car is within the hit radius: set the hit flag,
deactivate the car, and install the fly-away velocities (upward vy, a lateral
blast vx away from the player along the road's perpendicular axis or the x
axis without road context, a forward vz), the rotation spin, and the fly
clock and duration, all drawn from the random stream.  The mesh material and
scale bookkeeping of the same block is purely visual and omitted. -/
def hitNpc (basisAt : ℚ → Option RoadBasis) (carPos : Vec3) (m : NpcCar)
    (g : Rng) : NpcCar × Rng :=
  let lateralAxis : Vec3 :=
    match basisAt m.pos.z with
    | some b => b.perp
    | none => ⟨1, 0, 0⟩
  let sideSign : ℚ := if carPos.x ≤ m.pos.x then 1 else -1
  let rvy := (g.next).1
  let ga := (g.next).2
  let rlat := (ga.next).1
  let gb := (ga.next).2
  let rfwd := (gb.next).1
  let gc := (gb.next).2
  let lateralVec := Vec3.smul ((22 + rlat * 12) * sideSign) lateralAxis
  let rrx := (gc.next).1
  let gd := (gc.next).2
  let rry := (gd.next).1
  let ge := (gd.next).2
  let rrz := (ge.next).1
  let gf := (ge.next).2
  let rfd := (gf.next).1
  let gg := (gf.next).2
  ({ m with
      hit := true
      active := false
      vy := 18 + rvy * 6
      vx := lateralVec.x
      vz := 10 + rfwd * 8
      rotSpeed := ⟨(rrx - 1/2) * 6, (rry - 1/2) * 4, (rrz - 1/2) * 6⟩
      flyTime := 0
      flyDuration := 14/5 + rfd * (7/10) },
   gg)

/-- One iteration of the updateNpcCars loop for one NPC (worldgen.js lines
933-1023): inactive cars are skipped entirely; active cars move and clamp to
the road, despawn (with no other effect) when npcDespawnDistance behind the
player, and transition to hit exactly when not yet hit and within the hit
radius of the player car, awarding npcScoreBonus and one score popup and
setting the fly-away velocities from the random stream.  The source then
checks npc.hit: after a fresh hit that flag was just set, so the fly-away
step necessarily runs; without a fresh hit it runs exactly when the car was
already hit.  Returns the surviving car, the bonus awarded, the popups
created, and the advanced random stream. -/
def processOneNpc (basisAt : ℚ → Option RoadBasis) (playerPos carPos : Vec3)
    (dt : ℚ) (npc : NpcCar) (g : Rng) : Option NpcCar × ℚ × ℕ × Rng :=
  if npc.active = false then (some npc, 0, 0, g)
  else
    let m := moveNpc basisAt dt npc
    if playerPos.z + npcDespawnDistance < m.pos.z then (none, 0, 0, g)
    else
      let dx := m.pos.x - carPos.x
      let dz := m.pos.z - carPos.z
      if m.hit = false ∧ dx * dx + dz * dz < (5/2) * (5/2) then
        (flyNpc dt (hitNpc basisAt carPos m g).1, npcScoreBonus, 1,
          (hitNpc basisAt carPos m g).2)
      else if m.hit then (flyNpc dt m, 0, 0, g)
      else (some m, 0, 0, g)

/-- The updateNpcCars loop over the car list.  The JavaScript loop runs from
the last index down to 0 (removals splice the current element), so later list
elements are processed, and consume randoms, before earlier ones; surviving
cars keep their relative order. -/
def updateNpcCarsLoop (basisAt : ℚ → Option RoadBasis) (playerPos carPos : Vec3)
    (dt : ℚ) : List NpcCar → Rng → List NpcCar × ℚ × ℕ × Rng
  | [], g => ([], 0, 0, g)
  | npc :: rest, g =>
      let tail := updateNpcCarsLoop basisAt playerPos carPos dt rest g
      let head := processOneNpc basisAt playerPos carPos dt npc tail.2.2.2
      ((match head.1 with
        | some n => n :: tail.1
        | none => tail.1),
       tail.2.1 + head.2.1, tail.2.2.1 + head.2.2.1, head.2.2.2)

/-- WorldManager.updateNpcCars (worldgen.js lines 925-1025): a falsy dt
returns immediately with nothing changed; otherwise attempt a spawn and run
the per-car loop, accumulating the hit bonus and score popups. -/
def updateNpcCars (basisAt : ℚ → Option RoadBasis) (playerPos carPos : Vec3)
    (dt : ℚ) (st : NpcState) (g : Rng) : NpcState × Rng :=
  if dt = 0 then (st, g)
  else
    let spawned := trySpawnNpc basisAt playerPos st g
    let looped := updateNpcCarsLoop basisAt playerPos carPos dt (spawned.1).npcCars
      (spawned.2)
    ({ spawned.1 with
        npcCars := looped.1
        npcHitBonus := (spawned.1).npcHitBonus + looped.2.1
        scorePopups := (spawned.1).scorePopups + looped.2.2.1 },
     looped.2.2.2)

/-- The NPC side effect of WorldManager.render (worldgen.js lines 711-742):
render forwards its frameDelta parameter, which defaults to 0 when the caller
omits it, to updateNpcCars. -/
def renderNpcUpdate (basisAt : ℚ → Option RoadBasis) (playerPos carPos : Vec3)
    (frameDelta : Option ℚ) (st : NpcState) (g : Rng) : NpcState × Rng :=
  updateNpcCars basisAt playerPos carPos (frameDelta.getD 0) st g

/-- The NPC side effect of one Game.animate frame (main.js, Game.animate):
the game loop calls worldManager.render(player, car, physicsManager) without
a fourth argument, so frameDelta is absent. -/
def animateNpcUpdate (basisAt : ℚ → Option RoadBasis) (playerPos carPos : Vec3)
    (st : NpcState) (g : Rng) : NpcState × Rng :=
  renderNpcUpdate basisAt playerPos carPos none st g

/-! Claim C10: updateNpcCars is a no-op at dt = 0 and the game loop calls
render without a frame delta. -/

/-- C10: WorldManager.updateNpcCars leaves the whole NPC state (cars, spawn
schedule, hit bonus, popups) and the random stream untouched when dt is 0
(the falsy guard also covers an absent dt); and because Game.animate invokes
render without a frameDelta argument, whose default is 0, the per-frame NPC
update of normal play never changes any NPC state. -/
theorem updateNpcCars_zero_dt_noop (basisAt : ℚ → Option RoadBasis)
    (playerPos carPos : Vec3) (st : NpcState) (g : Rng) :
    updateNpcCars basisAt playerPos carPos 0 st g = (st, g) ∧
    renderNpcUpdate basisAt playerPos carPos none st g = (st, g) ∧
    animateNpcUpdate basisAt playerPos carPos st g = (st, g) := by
  refine ⟨?_, ?_, ?_⟩ <;>
    simp [updateNpcCars, renderNpcUpdate, animateNpcUpdate]

/-! Claim C6: the NPC count never exceeds npcMaxCount. -/

theorem spawnClusterLoop_length (basisAt : ℚ → Option RoadBasis)
    (roadBasis : RoadBasis) (baseSpawnZ : ℚ) :
    ∀ (k : ℕ) (lanes : List ℤ) (st : NpcState) (g : Rng),
      st.npcCars.length ≤ npcMaxCount →
      ((spawnClusterLoop basisAt roadBasis baseSpawnZ k lanes st g).1).npcCars.length ≤
        npcMaxCount := by
  intro k
  induction k with
  | zero => intro lanes st g h; exact h
  | succ m ih =>
      intro lanes st g h
      simp only [spawnClusterLoop]
      split_ifs with hfull hclose
      · exact h
      · exact ih _ _ _ h
      · refine ih _ _ _ ?_
        simp only [List.length_append, List.length_cons, List.length_nil]
        omega

theorem trySpawnNpc_length (basisAt : ℚ → Option RoadBasis) (playerPos : Vec3)
    (st : NpcState) (g : Rng) (h : st.npcCars.length ≤ npcMaxCount) :
    ((trySpawnNpc basisAt playerPos st g).1).npcCars.length ≤ npcMaxCount := by
  simp only [trySpawnNpc]
  split_ifs with h1 h2
  · exact h
  · exact h
  · cases hb : basisAt (playerPos.z - (160 + ((g.next).2.next).1 * 120)) with
    | none => exact h
    | some roadBasis => exact spawnClusterLoop_length _ _ _ _ _ _ _ h

/-- C6: trySpawnNpc never pushes the live NPC count beyond npcMaxCount = 14
(the count is checked both before the spawn attempt and before each
additional car of a cluster), so after any sequence of trySpawnNpc calls
starting from the constructor state the count is at most 14. -/
theorem npc_count_never_exceeds_max :
    (∀ (basisAt : ℚ → Option RoadBasis) (playerPos : Vec3) (st : NpcState) (g : Rng),
        st.npcCars.length ≤ npcMaxCount →
        ((trySpawnNpc basisAt playerPos st g).1).npcCars.length ≤ npcMaxCount) ∧
    (∀ calls : List ((ℚ → Option RoadBasis) × Vec3 × Rng),
        ((calls.foldl (fun st call => (trySpawnNpc call.1 call.2.1 st call.2.2).1)
            initialNpcState).npcCars.length ≤ npcMaxCount)) := by
  constructor
  · exact fun basisAt playerPos st g h => trySpawnNpc_length basisAt playerPos st g h
  · intro calls
    have main : ∀ (l : List ((ℚ → Option RoadBasis) × Vec3 × Rng)) (st : NpcState),
        st.npcCars.length ≤ npcMaxCount →
        ((l.foldl (fun st call => (trySpawnNpc call.1 call.2.1 st call.2.2).1)
            st).npcCars.length ≤ npcMaxCount) := by
      intro l
      induction l with
      | nil => intro st h; exact h
      | cons c tl ih =>
          intro st h
          exact ih _ (trySpawnNpc_length _ _ _ _ h)
    exact main calls initialNpcState (by simp [initialNpcState, npcMaxCount])

/-- Witness for C6 at the constructor state with a roadless basis oracle and
an all-zero random stream. -/
theorem npc_count_never_exceeds_max_witness :
    ((trySpawnNpc (fun _ => none) ⟨0, 0, 0⟩ initialNpcState ⟨fun _ => 0, 0⟩).1).npcCars.length ≤
      npcMaxCount := by
  exact npc_count_never_exceeds_max.1 (fun _ => none) ⟨0, 0, 0⟩ initialNpcState
    ⟨fun _ => 0, 0⟩ (by simp [initialNpcState, npcMaxCount])

/-! Claim C7: one launch and one score bonus per NPC. -/

/-- The reachable-state invariant of the NPC hit machinery: a car recorded as
hit is no longer active (the two flags are written together on the hit
frame). -/
def NpcOk (npc : NpcCar) : Prop := npc.hit = true → npc.active = false

theorem moveNpc_hit (basisAt : ℚ → Option RoadBasis) (dt : ℚ) (npc : NpcCar) :
    (moveNpc basisAt dt npc).hit = npc.hit := by
  simp only [moveNpc]
  split <;> rfl

theorem moveNpc_active (basisAt : ℚ → Option RoadBasis) (dt : ℚ) (npc : NpcCar) :
    (moveNpc basisAt dt npc).active = npc.active := by
  simp only [moveNpc]
  split <;> rfl

theorem processOneNpc_inactive (basisAt : ℚ → Option RoadBasis)
    (playerPos carPos : Vec3) (dt : ℚ) (npc : NpcCar) (g : Rng)
    (h : npc.active = false) :
    processOneNpc basisAt playerPos carPos dt npc g = (some npc, 0, 0, g) := by
  simp [processOneNpc, h]

theorem flyNpc_survives (dt : ℚ) (m2 : NpcCar)
    (h : ¬(m2.pos.y + (m2.vy - 32 * dt) * dt < -10 ∨
      1 ≤ (m2.flyTime + dt) / (if m2.flyDuration = 0 then 3 else m2.flyDuration))) :
    ∃ n, flyNpc dt m2 = some n ∧ n.hit = m2.hit ∧ n.active = m2.active := by
  simp only [flyNpc]
  rw [if_neg h]
  exact ⟨_, rfl, rfl, rfl⟩

theorem flyNpc_pres (dt : ℚ) (m2 n : NpcCar) (h : flyNpc dt m2 = some n) :
    n.hit = m2.hit ∧ n.active = m2.active := by
  simp only [flyNpc] at h
  split_ifs at h
  · injection h with h2
    rw [← h2]
    exact ⟨rfl, rfl⟩
  · injection h with h2
    rw [← h2]
    exact ⟨rfl, rfl⟩

theorem flyNpc_fresh_hit (dt : ℚ) (m2 : NpcCar)
    (hdt0 : 0 < dt) (hdt1 : dt ≤ 1/4)
    (hy : 0 ≤ m2.pos.y) (hvy : 18 ≤ m2.vy)
    (hft : m2.flyTime = 0) (hfd : 14/5 ≤ m2.flyDuration) :
    ∃ n, flyNpc dt m2 = some n ∧ n.hit = m2.hit ∧ n.active = m2.active := by
  refine flyNpc_survives dt m2 ?_
  intro hor
  rcases hor with h1 | h1
  · have hvy2 : (0 : ℚ) < m2.vy - 32 * dt := by nlinarith
    nlinarith [mul_pos hvy2 hdt0]
  · have hfdpos : (0 : ℚ) < m2.flyDuration := by nlinarith
    rw [hft, if_neg (ne_of_gt hfdpos), le_div_iff₀ hfdpos] at h1
    nlinarith

theorem hitNpc_fields (basisAt : ℚ → Option RoadBasis) (carPos : Vec3)
    (m : NpcCar) (g : Rng) :
    (hitNpc basisAt carPos m g).1.hit = true ∧
    (hitNpc basisAt carPos m g).1.active = false ∧
    (hitNpc basisAt carPos m g).1.pos = m.pos ∧
    (hitNpc basisAt carPos m g).1.vy = 18 + g.stream g.idx * 6 ∧
    (hitNpc basisAt carPos m g).1.flyTime = 0 ∧
    (hitNpc basisAt carPos m g).1.flyDuration =
      14/5 + g.stream (g.idx + 6) * (7/10) := by
  simp only [hitNpc, Rng.next]
  norm_num

theorem processOneNpc_first_contact (basisAt : ℚ → Option RoadBasis)
    (playerPos carPos : Vec3) (dt : ℚ) (npc : NpcCar) (g : Rng)
    (hactive : npc.active = true) (hhit : npc.hit = false)
    (hdt0 : 0 < dt) (hdt1 : dt ≤ 1/4)
    (hrnd : ∀ i, 0 ≤ g.stream i ∧ g.stream i < 1)
    (hy : 0 ≤ (moveNpc basisAt dt npc).pos.y)
    (hnear : ¬(playerPos.z + npcDespawnDistance < (moveNpc basisAt dt npc).pos.z))
    (hcontact : ((moveNpc basisAt dt npc).pos.x - carPos.x) *
        ((moveNpc basisAt dt npc).pos.x - carPos.x) +
        ((moveNpc basisAt dt npc).pos.z - carPos.z) *
        ((moveNpc basisAt dt npc).pos.z - carPos.z) < (5/2) * (5/2)) :
    ∃ (n : NpcCar) (g2 : Rng),
      processOneNpc basisAt playerPos carPos dt npc g = (some n, npcScoreBonus, 1, g2) ∧
      n.hit = true ∧ n.active = false := by
  have hmhit : (moveNpc basisAt dt npc).hit = false := by
    rw [moveNpc_hit]
    exact hhit
  obtain ⟨hfh, hfa, hfp, hfvy, hfft, hffd⟩ :=
    hitNpc_fields basisAt carPos (moveNpc basisAt dt npc) g
  obtain ⟨n, hn, hnh, hna⟩ :=
    flyNpc_fresh_hit dt (hitNpc basisAt carPos (moveNpc basisAt dt npc) g).1
      hdt0 hdt1 (by rw [hfp]; exact hy) (by rw [hfvy]; nlinarith [(hrnd g.idx).1])
      hfft (by rw [hffd]; nlinarith [(hrnd (g.idx + 6)).1])
  refine ⟨n, (hitNpc basisAt carPos (moveNpc basisAt dt npc) g).2, ?_, ?_, ?_⟩
  · simp only [processOneNpc, hactive, Bool.true_eq_false, if_false]
    rw [if_neg hnear, if_pos ⟨hmhit, hcontact⟩, hn]
  · rw [hnh, hfh]
  · rw [hna, hfa]

theorem processOneNpc_ok (basisAt : ℚ → Option RoadBasis) (playerPos carPos : Vec3)
    (dt : ℚ) (npc : NpcCar) (g : Rng) (hok : NpcOk npc) (n : NpcCar)
    (hn : (processOneNpc basisAt playerPos carPos dt npc g).1 = some n) : NpcOk n := by
  by_cases hactive : npc.active = false
  · rw [processOneNpc_inactive basisAt playerPos carPos dt npc g hactive] at hn
    injection hn with hn2
    exact hn2 ▸ hok
  · have hactive2 : npc.active = true := by
      revert hactive
      cases npc.active <;> simp
    have hhit : npc.hit = false := by
      cases hh : npc.hit
      · rfl
      · have := hok hh
        rw [hactive2] at this
        exact absurd this (by simp)
    have hmhit : (moveNpc basisAt dt npc).hit = false := by
      rw [moveNpc_hit]
      exact hhit
    simp only [processOneNpc, hactive2, Bool.true_eq_false, if_false] at hn
    split_ifs at hn with hdesp hcontact hflyhit
    · have hpres := flyNpc_pres dt _ n hn
      intro _
      rw [hpres.2, (hitNpc_fields basisAt carPos (moveNpc basisAt dt npc) g).2.1]
    · exact absurd hflyhit (by simp [hmhit])
    · have hn2 : some (moveNpc basisAt dt npc) = some n := hn
      injection hn2 with hn3
      intro hcon
      rw [← hn3, moveNpc_hit] at hcon
      exact absurd hcon (by simp [hhit])

theorem spawnClusterLoop_ok (basisAt : ℚ → Option RoadBasis) (roadBasis : RoadBasis)
    (baseSpawnZ : ℚ) :
    ∀ (k : ℕ) (lanes : List ℤ) (st : NpcState) (g : Rng),
      (∀ x ∈ st.npcCars, NpcOk x) →
      ∀ x ∈ ((spawnClusterLoop basisAt roadBasis baseSpawnZ k lanes st g).1).npcCars,
        NpcOk x := by
  intro k
  induction k with
  | zero => intro lanes st g h; exact h
  | succ m ih =>
      intro lanes st g h
      simp only [spawnClusterLoop]
      split_ifs with hfull hclose
      · exact h
      · exact ih _ _ _ h
      · refine ih _ _ _ ?_
        intro x hx
        rcases List.mem_append.mp hx with hx | hx
        · exact h x hx
        · rcases List.mem_singleton.mp hx with rfl
          intro hh
          exact absurd hh (by simp)

theorem trySpawnNpc_ok (basisAt : ℚ → Option RoadBasis) (playerPos : Vec3)
    (st : NpcState) (g : Rng) (h : ∀ x ∈ st.npcCars, NpcOk x) :
    ∀ x ∈ ((trySpawnNpc basisAt playerPos st g).1).npcCars, NpcOk x := by
  simp only [trySpawnNpc]
  split_ifs with h1 h2
  · exact h
  · exact h
  · cases hb : basisAt (playerPos.z - (160 + ((g.next).2.next).1 * 120)) with
    | none => exact h
    | some roadBasis => exact spawnClusterLoop_ok _ _ _ _ _ _ _ h

theorem updateNpcCarsLoop_ok (basisAt : ℚ → Option RoadBasis)
    (playerPos carPos : Vec3) (dt : ℚ) :
    ∀ (l : List NpcCar) (g : Rng), (∀ x ∈ l, NpcOk x) →
      ∀ x ∈ (updateNpcCarsLoop basisAt playerPos carPos dt l g).1, NpcOk x := by
  intro l
  induction l with
  | nil =>
      intro g h x hx
      simp [updateNpcCarsLoop] at hx
  | cons npc rest ih =>
      intro g h x hx
      simp only [updateNpcCarsLoop] at hx
      rcases hp : (processOneNpc basisAt playerPos carPos dt npc
          (updateNpcCarsLoop basisAt playerPos carPos dt rest g).2.2.2).1 with _ | n
      · rw [hp] at hx
        exact ih _ (fun y hy => h y (List.mem_cons_of_mem _ hy)) x hx
      · rw [hp] at hx
        rcases List.mem_cons.mp hx with rfl | hx2
        · exact processOneNpc_ok _ _ _ _ _ _ (h npc (List.mem_cons_self _ _)) _ hp
        · exact ih _ (fun y hy => h y (List.mem_cons_of_mem _ hy)) x hx2

theorem updateNpcCars_ok (basisAt : ℚ → Option RoadBasis) (playerPos carPos : Vec3)
    (dt : ℚ) (st : NpcState) (g : Rng) (h : ∀ x ∈ st.npcCars, NpcOk x) :
    ∀ x ∈ ((updateNpcCars basisAt playerPos carPos dt st g).1).npcCars, NpcOk x := by
  simp only [updateNpcCars]
  split_ifs with hdt
  · exact h
  · exact updateNpcCarsLoop_ok _ _ _ _ _ _ (trySpawnNpc_ok _ _ _ _ h)

/-- C7: per NPC, the hit machinery of updateNpcCars fires at most once.  An
inactive car (in particular every car already hit, by the preserved
invariant) is skipped entirely: no movement, no launch, no score bonus, no
popup.  A cruising, not-yet-hit car in contact with the player after its
movement undergoes exactly one transition to hit (becoming inactive) and
awards the score bonus callback exactly once (one bonus of npcScoreBonus, one
popup).  The invariant that a hit car is inactive is preserved by every
updateNpcCars call, including freshly spawned cars, so a hit car is ignored
by all subsequent proximity checks and never launches or scores again. -/
theorem npc_hit_fires_once :
    (∀ (basisAt : ℚ → Option RoadBasis) (playerPos carPos : Vec3) (dt : ℚ)
        (npc : NpcCar) (g : Rng), npc.active = false →
        processOneNpc basisAt playerPos carPos dt npc g = (some npc, 0, 0, g)) ∧
    (∀ (basisAt : ℚ → Option RoadBasis) (playerPos carPos : Vec3) (dt : ℚ)
        (npc : NpcCar) (g : Rng),
        npc.active = true → npc.hit = false → 0 < dt → dt ≤ 1/4 →
        (∀ i, 0 ≤ g.stream i ∧ g.stream i < 1) →
        0 ≤ (moveNpc basisAt dt npc).pos.y →
        ¬(playerPos.z + npcDespawnDistance < (moveNpc basisAt dt npc).pos.z) →
        ((moveNpc basisAt dt npc).pos.x - carPos.x) *
            ((moveNpc basisAt dt npc).pos.x - carPos.x) +
          ((moveNpc basisAt dt npc).pos.z - carPos.z) *
            ((moveNpc basisAt dt npc).pos.z - carPos.z) < (5/2) * (5/2) →
        ∃ (n : NpcCar) (g2 : Rng),
          processOneNpc basisAt playerPos carPos dt npc g =
            (some n, npcScoreBonus, 1, g2) ∧ n.hit = true ∧ n.active = false) ∧
    (∀ (basisAt : ℚ → Option RoadBasis) (playerPos carPos : Vec3) (dt : ℚ)
        (st : NpcState) (g : Rng), (∀ x ∈ st.npcCars, NpcOk x) →
        ∀ x ∈ ((updateNpcCars basisAt playerPos carPos dt st g).1).npcCars, NpcOk x) :=
  ⟨processOneNpc_inactive, processOneNpc_first_contact, updateNpcCars_ok⟩

/-- Witness for C7: a concrete cruising NPC sitting on the player car is hit,
awarded exactly one bonus and one popup, and marked hit and inactive. -/
theorem npc_hit_fires_once_witness :
    ∃ (n : NpcCar) (g2 : Rng),
      processOneNpc (fun _ => none) ⟨0, 0, 0⟩ ⟨0, 0, 0⟩ (1/60)
          ⟨⟨0, 1/2, 0⟩, ⟨0, 0, 0⟩, 10, -1, true, false, 0, 0, 0, ⟨0, 0, 0⟩, 0, 0⟩
          ⟨fun _ => 1/2, 0⟩ =
        (some n, npcScoreBonus, 1, g2) ∧ n.hit = true ∧ n.active = false := by
  refine npc_hit_fires_once.2.1 (fun _ => none) ⟨0, 0, 0⟩ ⟨0, 0, 0⟩ (1/60)
    ⟨⟨0, 1/2, 0⟩, ⟨0, 0, 0⟩, 10, -1, true, false, 0, 0, 0, ⟨0, 0, 0⟩, 0, 0⟩
    ⟨fun _ => 1/2, 0⟩ rfl rfl (by norm_num) (by norm_num)
    (fun i => by norm_num) ?_ ?_ ?_ <;> simp [moveNpc, npcDespawnDistance] <;> norm_num

/-! Claim C8: the road-generation fallback of
WorldManager.generateNewRoadSegments (worldgen.js lines 638-680).  The catch
clause computes `this.lastPlayerZ - 50`, but no code in the repository ever
assigns lastPlayerZ on a WorldManager instance (the constructor does not
define it either), so the subtraction reads undefined and produces NaN.
JavaScript numbers that may be undefined/NaN are embedded as Option ℚ with
none for the non-numeric values, which arithmetic propagates. -/

/-- A waypoint as pushed by setupNextFrame; its z may be NaN (none). -/
structure FallbackPoint where
  x : ℚ
  y : ℚ
  z : Option ℚ
  angle : ℚ
deriving Repr, DecidableEq

/-- The WorldManager fields the fallback path touches: the roadSegments
buffer and the lastPlayerZ property, which is never assigned anywhere in the
repository and therefore stays undefined (none). -/
structure StreamerState where
  roadSegments : List FallbackPoint
  lastPlayerZ : Option ℚ
deriving Repr, DecidableEq

/-- JavaScript subtraction where the left operand may be undefined or NaN:
undefined - 50 and NaN - 50 are NaN. -/
def jsSubNum (a : Option ℚ) (b : ℚ) : Option ℚ := a.map (fun q => q - b)

/-- The outcome of the try block of generateNewRoadSegments: either the
completed state, or the state at the moment an exception was thrown (try does
not roll back earlier mutations). -/
inductive TryOutcome (α : Type) where
  | ok (st : α)
  | thrown (st : α)

/-- The try/catch structure of generateNewRoadSegments: run the try block;
when it throws, log the failure and push the single straight fallback
waypoint (0, 0, this.lastPlayerZ - 50, 0) via setupNextFrame. -/
def generateNewRoadSegmentsRun (tryBlock : StreamerState → TryOutcome StreamerState)
    (st : StreamerState) : StreamerState :=
  match tryBlock st with
  | TryOutcome.ok st2 => st2
  | TryOutcome.thrown st2 =>
      { st2 with roadSegments :=
          st2.roadSegments ++ [⟨0, 0, jsSubNum st2.lastPlayerZ 50, 0⟩] }

/-- The WorldManager constructor state for these fields: empty roadSegments
and lastPlayerZ never assigned (undefined). -/
def initialStreamerState : StreamerState := ⟨[], none⟩

/-- A try block that throws immediately, as when road schematic generation
itself fails (generateRoadSchematic is the first statement of the try, so no
earlier mutation has happened). -/
def throwingTryBlock (st : StreamerState) : TryOutcome StreamerState :=
  TryOutcome.thrown st

/-- C8 (failing behavior): when road generation throws on a WorldManager as
constructed, the catch clause does append exactly one fallback waypoint, but
its z coordinate is NaN (none) -- this.lastPlayerZ - 50 with lastPlayerZ
never assigned -- not a number 50 units ahead of the player's last recorded
z position; in particular the appended z is not equal to q - 50 for any
rational q. -/
theorem roadFallback_z_is_nan :
    (generateNewRoadSegmentsRun throwingTryBlock initialStreamerState).roadSegments =
      [⟨0, 0, none, 0⟩] ∧
    ∀ q : ℚ,
      (generateNewRoadSegmentsRun throwingTryBlock
          initialStreamerState).roadSegments ≠ [⟨0, 0, some (q - 50), 0⟩] := by
  constructor
  · rfl
  · intro q h
    simp [generateNewRoadSegmentsRun, throwingTryBlock, initialStreamerState,
      jsSubNum] at h

end CVDriver
